import Mathlib

/-!
Verification of the auditing pipeline in pkg/apiserver/auditing/types.go.

The Go source is shallowly embedded: pure data is translated to Lean
structures, stateful methods become explicit state passing, machine
integers are modelled as Int with explicit wraparound where it matters,
and Go panics (nil pointer dereference, failed interface conversion)
are modelled with Except.
-/

/-- Audit levels of k8s.io/apiserver/pkg/apis/audit, ordered
None < Metadata < Request < RequestResponse. -/
inductive AuditLevel
| None
| Metadata
| Request
| RequestResponse
deriving DecidableEq

/-- Position of a level in the ordering used by audit.Level.Less. -/
def levelOrd : AuditLevel → Nat
| AuditLevel.None => 0
| AuditLevel.Metadata => 1
| AuditLevel.Request => 2
| AuditLevel.RequestResponse => 3

/-- audit.Level.GreaterOrEqual from the k8s audit API: a is at least as
verbose as b. -/
def AuditLevel.GreaterOrEqual (a b : AuditLevel) : Bool :=
  levelOrd b ≤ levelOrd a

/-- audit.ObjectReference as populated by LogRequestObject. -/
structure ObjectReference where
  resource : String
  namespc : String
  name : String
  uid : String
  apiGroup : String
  apiVersion : String
  resourceVersion : String
  subresource : String
deriving DecidableEq

/-- The user attribution part of an audit event (audit.Event.User).
The Go zero value has empty strings, a nil group slice and a nil Extra
map; Extra is modelled as Option so that the nil map is distinguishable
from an allocated one. -/
structure EventUser where
  username : String
  uid : String
  groups : List String
  extra : Option (List (String × List String))
deriving DecidableEq

/-- auditv1alpha1.Event: one audit record per request/response cycle.
RequestObject and ResponseObject are the nil-able raw body snapshots
(pointers to runtime.Unknown in Go); ResponseStatus is the nil-able
response status; StageTimestamp is left at its zero value until
finalization, modelled as Option Nat. -/
structure Event where
  devops : String
  workspace : String
  cluster : String
  requestURI : String
  verb : String
  level : AuditLevel
  auditID : String
  stage : String
  userAgent : String
  requestReceivedTimestamp : Nat
  stageTimestamp : Option Nat
  objectRef : ObjectReference
  sourceIPs : List String
  user : EventUser
  requestObject : Option (List Nat)
  responseObject : Option (List Nat)
  responseStatus : Option Int
deriving DecidableEq

/-- A Go runtime fault: the two panics this code can hit. -/
inductive GoFault
| nilPointerDereference
| interfaceConversionPanic
deriving DecidableEq

/-- The error returned by ResponseCapture.Hijack when the wrapped writer
does not implement http.Hijacker (the Go code returns an error value
built with fmt.Errorf), or an error coming from the wrapped writer. -/
inductive HijackErr
| notSupportedHijacker
| underlyingErr (msg : String)
deriving DecidableEq

/-- The underlying http.ResponseWriter wrapped by ResponseCapture.
forwarded and headerCommits record every byte and status code handed to
it; writeResult gives the (count, error) pair its Write returns for a
chunk; the supports flags say which optional interfaces the dynamic
type implements, and hijackResult / closeNotifyChan what delegation
returns when supported. -/
structure UnderlyingWriter where
  forwarded : List Nat
  headerCommits : List Int
  writeResult : List Nat → Nat × Option String
  supportsHijacker : Bool
  hijackResult : Option Nat × Option Nat × Option HijackErr
  supportsCloseNotifier : Bool
  closeNotifyChan : Nat

/-- ResponseCapture from types.go: wraps a writer, latches the first
committed status and mirrors the body into a buffer. -/
structure ResponseCapture where
  underlying : UnderlyingWriter
  wroteHeader : Bool
  status : Int
  body : List Nat

/-- NewResponseCapture: wroteHeader starts false; the status field is
left at the Go zero value 0 and the body buffer is empty. -/
def NewResponseCapture (w : UnderlyingWriter) : ResponseCapture :=
  { underlying := w, wroteHeader := false, status := 0, body := [] }

/-- ResponseCapture.WriteHeader: commits the status to the latch and to
the underlying writer only on the first call; later calls do nothing. -/
def ResponseCapture.WriteHeader (c : ResponseCapture) (statusCode : Int) : ResponseCapture :=
  if c.wroteHeader then c
  else
    { c with
      status := statusCode
      wroteHeader := true
      underlying :=
        { c.underlying with headerCommits := c.underlying.headerCommits ++ [statusCode] } }

/-- ResponseCapture.Write: first WriteHeader(200) (a no-op if already
committed), then append the chunk to the capture buffer, then forward
the chunk to the underlying writer, returning its (count, error). -/
def ResponseCapture.Write (c : ResponseCapture) (data : List Nat) :
    ResponseCapture × (Nat × Option String) :=
  let c1 := c.WriteHeader 200
  let c2 := { c1 with body := c1.body ++ data }
  let res := c2.underlying.writeResult data
  let c3 :=
    { c2 with underlying := { c2.underlying with forwarded := c2.underlying.forwarded ++ data } }
  (c3, res)

/-- ResponseCapture.Bytes: the captured body. -/
def ResponseCapture.Bytes (c : ResponseCapture) : List Nat :=
  c.body

/-- ResponseCapture.StatusCode: the latched status. -/
def ResponseCapture.StatusCode (c : ResponseCapture) : Int :=
  c.status

/-- ResponseCapture.Hijack: checked type assertion; when the wrapped
writer is not an http.Hijacker it returns (nil, nil, error) without
panicking, otherwise it delegates. -/
def ResponseCapture.Hijack (c : ResponseCapture) :
    Option Nat × Option Nat × Option HijackErr :=
  if c.underlying.supportsHijacker then c.underlying.hijackResult
  else (none, none, some HijackErr.notSupportedHijacker)

/-- ResponseCapture.CloseNotify: unchecked type assertion
c.ResponseWriter.(http.CloseNotifier); when the wrapped writer does not
implement http.CloseNotifier the assertion panics. -/
def ResponseCapture.CloseNotify (c : ResponseCapture) : Except GoFault Nat :=
  if c.underlying.supportsCloseNotifier then Except.ok c.underlying.closeNotifyChan
  else Except.error GoFault.interfaceConversionPanic

/-- DefaultCacheCapacity from types.go. -/
def DefaultCacheCapacity : Nat := 10000

/-- CacheTimeout from types.go, in seconds (time.Second). -/
def CacheTimeout : Nat := 1

/-- Outcome of one enqueue attempt on the delivery channel. -/
inductive EnqueueOutcome
| inserted
| droppedLogged (auditID : String)
deriving DecidableEq

/-- cacheEvent: select between sending on the buffered channel and a
CacheTimeout timer.  The queue argument is the buffer content at the
moment the select resolves: a free slot (length below capacity, the
send fires at once or as soon as the consumer frees a slot within the
timeout) inserts the event; a buffer still full when the timer fires
drops the event and logs a diagnostic carrying its AuditID.  The
function is total: the caller always gets control back. -/
def cacheEvent (q : List Event) (e : Event) : List Event × EnqueueOutcome :=
  if q.length < DefaultCacheCapacity then (q ++ [e], EnqueueOutcome.inserted)
  else (q, EnqueueOutcome.droppedLogged e.auditID)

/-- User identity carried in the request context (the external
request.UserFrom accessor yields it when present). -/
structure UserInfo where
  name : String
  uid : String
  groups : List String
  extra : List (String × List String)
deriving DecidableEq

/-- The pieces of *http.Request that LogRequestObject reads.  query is
the parsed URL query (multi-valued); body models the request body
stream: Except.ok bs means reading it to the end yields exactly bs,
Except.error msg means io.ReadAll fails with that error. -/
structure Request where
  query : List (String × String)
  path : String
  userAgent : String
  remoteIp : String
  contentLength : Int
  body : Except String (List Nat)
  user : Option UserInfo

/-- request.RequestInfo fields read by LogRequestObject. -/
structure RequestInfo where
  isKubernetesRequest : Bool
  path : String
  verb : String
  resource : String
  namespc : String
  name : String
  apiGroup : String
  apiVersion : String
  resourceScope : String
  subresource : String
  devops : String
  workspace : String
  cluster : String
deriving DecidableEq

/-- req.URL.Query()[k]: all values bound to key k, in order. -/
def queryValues (req : Request) (k : String) : List String :=
  (req.query.filter (fun p => p.1 = k)).map (fun p => p.2)

/-- devopsv1alpha3.DevOpsProject as read by the enrichment loop: its
name, its Status.AdminNamespace and its label map. -/
structure DevOpsProject where
  name : String
  adminNamespace : String
  labels : List (String × String)
deriving DecidableEq

/-- Modelled from the spec: the project registry (devopsGetter.List,
implemented outside src/) has contract List(query) -> Collection of
Project, so a collection is always available alongside a possible
lookup error; on a failed lookup the collection is empty. -/
structure RegistryResult where
  items : List DevOpsProject
  err : Option String

/-- Diagnostics LogRequestObject emits through klog. -/
inductive LogEntry
| ignoreDryRun (path : String)
| listError (msg : String)
| readBodyError (msg : String)
deriving DecidableEq

/-- Go map lookup d.Labels[k]: the zero value is the empty string when
the key is absent. -/
def lookupLabel (labels : List (String × String)) (k : String) : String :=
  match labels.find? (fun p => p.1 = k) with
  | some p => p.2
  | none => ""

/-- The dry-run guard at the top of LogRequestObject: only Kubernetes
requests whose URL carries a dryRun query parameter are ignored. -/
def isDryRunIgnored (req : Request) (info : RequestInfo) : Bool :=
  info.isKubernetesRequest && !((queryValues req "dryRun").length == 0)

/-- The event literal built at the top of LogRequestObject, before
enrichment: fields copied verbatim from the request and requestInfo,
stage set eagerly to ResponseComplete, snapshots and response status
nil. -/
def baseEvent (req : Request) (info : RequestInfo) (lvl : AuditLevel)
    (auditID : String) (now : Nat) : Event :=
  { devops := info.devops
    workspace := info.workspace
    cluster := info.cluster
    requestURI := info.path
    verb := info.verb
    level := lvl
    auditID := auditID
    stage := "ResponseComplete"
    userAgent := req.userAgent
    requestReceivedTimestamp := now
    stageTimestamp := none
    objectRef :=
      { resource := info.resource
        namespc := info.namespc
        name := info.name
        uid := ""
        apiGroup := info.apiGroup
        apiVersion := info.apiVersion
        resourceVersion := info.resourceScope
        subresource := info.subresource }
    sourceIPs := []
    user := { username := "", uid := "", groups := [], extra := none }
    requestObject := none
    responseObject := none
    responseStatus := none }

/-- The scan over res.Items: the pair carried along is the current
(e.Devops, e.Workspace).  A project whose name matches sets the
workspace label; a project whose admin namespace matches sets the
workspace label and renames e.Devops to the canonical project name,
which later iterations compare against. -/
def enrichScan (devops workspace : String) : List DevOpsProject → String × String
| [] => (devops, workspace)
| d :: rest =>
    if d.name = devops then
      enrichScan devops (lookupLabel d.labels "kubesphere.io/workspace") rest
    else if d.adminNamespace = devops then
      enrichScan d.name (lookupLabel d.labels "kubesphere.io/workspace") rest
    else enrichScan devops workspace rest

/-- The workspace-enrichment block of LogRequestObject: runs only when
the event carries a devops project id and no workspace; a List error is
logged with klog.Error and the scan proceeds over the returned items
regardless. -/
def enrichWorkspace (e : Event) (reg : RegistryResult) : Event × List LogEntry :=
  if 0 < e.devops.length ∧ e.workspace.length = 0 then
    let logs := match reg.err with
      | some msg => [LogEntry.listError msg]
      | none => []
    let p := enrichScan e.devops e.workspace reg.items
    ({ e with devops := p.1, workspace := p.2 }, logs)
  else (e, [])

/-- Copy of the user identity from the request context onto the event;
an absent identity leaves the zero-valued attribution in place. -/
def applyUser (e : Event) (req : Request) : Event :=
  match req.user with
  | none => e
  | some u =>
      { e with
        user :=
          { username := u.name, uid := u.uid, groups := u.groups, extra := some u.extra } }

/-- needAnalyzeRequestBody from types.go. -/
def needAnalyzeRequestBody (e : Event) (req : Request) : Bool :=
  if req.contentLength ≤ 0 then false
  else if e.level.GreaterOrEqual AuditLevel.Request then true
  else if e.verb = "create" then true
  else if e.objectRef.resource = "users" && e.verb = "update" then true
  else false

/-- The snapshot step inside the body-inspection block: when the level
reaches Request, the raw bytes become the request-body snapshot. -/
def snapshotRequestBody (e : Event) (bs : List Nat) : Event :=
  if e.level.GreaterOrEqual AuditLevel.Request then { e with requestObject := some bs }
  else e

/-- The create-name step: for a create verb, a successful decode of the
body (modelled by decodeName, some n = json.Unmarshal succeeded with
Name n) overwrites the object-reference name. -/
def applyCreateName (e : Event) (info : RequestInfo) (bs : List Nat)
    (decodeName : List Nat → Option String) : Event :=
  if info.verb = "create" then
    match decodeName bs with
    | some n => { e with objectRef := { e.objectRef with name := n } }
    | none => e
  else e

/-- The enable/disable relabeling step: on a users update, a successful
decode of the body as a user object (modelled by decodeState, some s =
json.Unmarshal succeeded with Status.State s) relabels the verb when
the state is Active or Disabled. -/
def relabelUserVerb (e : Event) (bs : List Nat)
    (decodeState : List Nat → Option String) : Event :=
  if e.objectRef.resource = "users" && e.verb = "update" then
    match decodeState bs with
    | some s =>
        if s = "Active" then { e with verb := "enable" }
        else if s = "Disabled" then { e with verb := "disable" }
        else e
    | none => e
  else e

/-- The body-inspection block of LogRequestObject.  A read error is
logged and the function returns the event as built so far, leaving the
request body unrestored; a successful read replaces req.Body with a
fresh buffer over the same bytes and chains the snapshot, create-name
and relabeling steps in source order. -/
def analyzeBody (e : Event) (req : Request) (info : RequestInfo)
    (decodeName : List Nat → Option String)
    (decodeState : List Nat → Option String) :
    Event × Request × List LogEntry :=
  if needAnalyzeRequestBody e req then
    match req.body with
    | Except.error msg => (e, req, [LogEntry.readBodyError msg])
    | Except.ok bs =>
        (relabelUserVerb (applyCreateName (snapshotRequestBody e bs) info bs decodeName)
            bs decodeState,
          { req with body := Except.ok bs }, [])
  else (e, req, [])

/-- The event as it stands when the body-inspection gate is evaluated:
constructed, workspace-enriched, source IP set, user attribution
applied. -/
def preBodyEvent (req : Request) (info : RequestInfo) (lvl : AuditLevel)
    (auditID : String) (now : Nat) (reg : RegistryResult) : Event :=
  applyUser
    { (enrichWorkspace (baseEvent req info lvl auditID now) reg).1 with
      sourceIPs := [req.remoteIp] }
    req

/-- LogRequestObject from types.go.  lvl is the result of getAuditLevel,
auditID the freshly generated uuid, now the request-received timestamp,
reg the outcome of the external registry List call.  Returns the
possibly-nil event, the request with its possibly-reconstructed body,
and the emitted diagnostics. -/
def LogRequestObject (req : Request) (info : RequestInfo) (lvl : AuditLevel)
    (auditID : String) (now : Nat) (reg : RegistryResult)
    (decodeName : List Nat → Option String)
    (decodeState : List Nat → Option String) :
    Option Event × Request × List LogEntry :=
  if isDryRunIgnored req info then (none, req, [LogEntry.ignoreDryRun req.path])
  else
    let e3 := preBodyEvent req info lvl auditID now reg
    let r := analyzeBody e3 req info decodeName decodeState
    (some r.1, r.2.1, (enrichWorkspace (baseEvent req info lvl auditID now) reg).2 ++ r.2.2)

/-- Go conversion int32(n): wraparound into the signed 32-bit range. -/
def toInt32 (n : Int) : Int :=
  (n + 2 ^ 31) % 2 ^ 32 - 2 ^ 31

/-- The mutation LogResponseObject performs on a non-nil event: stage
timestamp, response status from the capture (converted through int32),
and the response-body snapshot when the level reaches
RequestResponse. -/
def finalizeEvent (e : Event) (resp : ResponseCapture) (now : Nat) : Event :=
  let e1 :=
    { e with stageTimestamp := some now, responseStatus := some (toInt32 resp.StatusCode) }
  if e1.level.GreaterOrEqual AuditLevel.RequestResponse then
    { e1 with responseObject := some resp.Bytes }
  else e1

/-- LogResponseObject from types.go.  Its first statement writes through
the event pointer, so a nil event is a nil pointer dereference; a
non-nil event is finalized and handed to cacheEvent. -/
def LogResponseObject (e : Option Event) (resp : ResponseCapture) (now : Nat)
    (q : List Event) : Except GoFault (List Event × EnqueueOutcome) :=
  match e with
  | none => Except.error GoFault.nilPointerDereference
  | some ev => Except.ok (cacheEvent q (finalizeEvent ev resp now))

/-- Modelled from the spec: the HTTP filter that drives the pipeline is
not under src/; per the spec, callers tolerate a nil event as the
not-audited marker and skip the OnResponse step entirely for it, so
nothing reaches the delivery queue. -/
def withAuditingOnResponse (e : Option Event) (resp : ResponseCapture) (now : Nat)
    (q : List Event) : List Event × Option EnqueueOutcome :=
  match e with
  | none => (q, none)
  | some ev =>
      let r := cacheEvent q (finalizeEvent ev resp now)
      (r.1, some r.2)

/-- A wrapped writer supporting both optional capabilities; its Write
reports the full chunk length and no error. -/
def uw0 : UnderlyingWriter :=
  { forwarded := []
    headerCommits := []
    writeResult := fun data => (data.length, none)
    supportsHijacker := true
    hijackResult := (some 1, some 2, none)
    supportsCloseNotifier := true
    closeNotifyChan := 7 }

/-- A wrapped writer supporting neither optional capability. -/
def uwBare : UnderlyingWriter :=
  { forwarded := []
    headerCommits := []
    writeResult := fun _ => (0, none)
    supportsHijacker := false
    hijackResult := (none, none, none)
    supportsCloseNotifier := false
    closeNotifyChan := 0 }

/-- An empty registry outcome with no error. -/
def regEmpty : RegistryResult := { items := [], err := none }

/-- A decoder that always fails, standing for json.Unmarshal errors. -/
def decNone : List Nat → Option String := fun _ => none

/-- A concrete event used to exercise the delivery queue. -/
def ev0 : Event :=
  baseEvent
    { query := [], path := "/x", userAgent := "ua", remoteIp := "1.1.1.1",
      contentLength := 0, body := Except.ok [], user := none }
    { isKubernetesRequest := false, path := "/x", verb := "get", resource := "pods",
      namespc := "", name := "", apiGroup := "", apiVersion := "", resourceScope := "",
      subresource := "", devops := "", workspace := "", cluster := "" }
    AuditLevel.Metadata "id-ev0" 0

/-- Claim C2 (amended): Hijack on a writer without Hijacker support
returns the capability-not-supported error without crashing, and both
Hijack and CloseNotify delegate directly when the wrapped writer
supports the capability.  (CloseNotify without support panics; see the
counterexample.) -/
theorem c2_capability_passthrough (w v : UnderlyingWriter)
    (hwh : w.supportsHijacker = true) (hwc : w.supportsCloseNotifier = true)
    (hvh : v.supportsHijacker = false) :
    (NewResponseCapture w).Hijack = w.hijackResult ∧
    (NewResponseCapture w).CloseNotify = Except.ok w.closeNotifyChan ∧
    (NewResponseCapture v).Hijack = (none, none, some HijackErr.notSupportedHijacker) := by
  refine ⟨?_, ?_, ?_⟩ <;>
    simp [NewResponseCapture, ResponseCapture.Hijack, ResponseCapture.CloseNotify, hwh, hwc, hvh]

/-- Witness for C2 on two concrete writers. -/
theorem c2_witness :
    (NewResponseCapture uw0).Hijack = uw0.hijackResult ∧
    (NewResponseCapture uw0).CloseNotify = Except.ok uw0.closeNotifyChan ∧
    (NewResponseCapture uwBare).Hijack = (none, none, some HijackErr.notSupportedHijacker) :=
  c2_capability_passthrough uw0 uwBare rfl rfl rfl

/-- Counterexample for C2 as stated: invoking CloseNotify through the
adapter on a wrapped writer without CloseNotifier support does not
return a capability-not-supported error; the unchecked interface
conversion panics. -/
theorem c2_counterexample :
    (NewResponseCapture uwBare).CloseNotify = Except.error GoFault.interfaceConversionPanic := by
  rfl

/-- Claim C3 (amended): LogResponseObject invoked with a nil event is
not a no-op: its first statement dereferences the event and panics.
The caller modelled from the spec skips the OnResponse step for a nil
event, so nothing is enqueued and nothing fails on the request path. -/
theorem c3_nil_event (resp : ResponseCapture) (now : Nat) (q : List Event) :
    LogResponseObject none resp now q = Except.error GoFault.nilPointerDereference ∧
    withAuditingOnResponse none resp now q = (q, none) :=
  ⟨rfl, rfl⟩

/-- Counterexample for C3 as stated: at a concrete capture and queue,
LogResponseObject on a nil event fails with a nil pointer dereference
instead of succeeding as a no-op. -/
theorem c3_counterexample :
    LogResponseObject none (NewResponseCapture uwBare) 3 [] =
      Except.error GoFault.nilPointerDereference := by
  rfl

/-- Claim C6: an enqueue attempt inserts the event when the buffer has
a free slot; when the buffer is still full after the one-second
timeout the event is dropped and a diagnostic carrying its AuditID is
logged; the constants are 10000 slots and 1 second, and the function
always returns. -/
theorem c6_enqueue_bounded (q : List Event) (e : Event) :
    (q.length < DefaultCacheCapacity →
      cacheEvent q e = (q ++ [e], EnqueueOutcome.inserted)) ∧
    (DefaultCacheCapacity ≤ q.length →
      cacheEvent q e = (q, EnqueueOutcome.droppedLogged e.auditID)) ∧
    DefaultCacheCapacity = 10000 ∧ CacheTimeout = 1 := by
  refine ⟨fun h => ?_, fun h => ?_, rfl, rfl⟩
  · simp [cacheEvent, h]
  · simp [cacheEvent, Nat.not_lt.mpr h]

/-- Witness for C6: one insertion into an empty buffer and one drop
from a buffer holding 10000 events. -/
theorem c6_witness :
    cacheEvent [] ev0 = ([ev0], EnqueueOutcome.inserted) ∧
    cacheEvent (List.replicate 10000 ev0) ev0 =
      (List.replicate 10000 ev0, EnqueueOutcome.droppedLogged ev0.auditID) :=
  ⟨(c6_enqueue_bounded [] ev0).1 (by norm_num [DefaultCacheCapacity]),
   (c6_enqueue_bounded (List.replicate 10000 ev0) ev0).2.1
     (by norm_num [DefaultCacheCapacity, List.length_replicate])⟩

/-- Claim C7: Write commits status 200 first when headers are pending,
appends the chunk to the capture buffer, forwards the same chunk to the
wrapped writer, and returns exactly the wrapped writer result. -/
theorem c7_write_passthrough (c : ResponseCapture) (data : List Nat) :
    (c.wroteHeader = false →
      ((c.Write data).1.status = 200 ∧ (c.Write data).1.wroteHeader = true ∧
        (c.Write data).1.underlying.headerCommits = c.underlying.headerCommits ++ [200])) ∧
    (c.Write data).1.body = c.body ++ data ∧
    (c.Write data).1.underlying.forwarded = c.underlying.forwarded ++ data ∧
    (c.Write data).2 = c.underlying.writeResult data := by
  cases hw : c.wroteHeader <;>
    simp [ResponseCapture.Write, ResponseCapture.WriteHeader, hw]

/-- Witness for C7 on a fresh capture over a concrete writer. -/
theorem c7_witness :
    ((NewResponseCapture uw0).Write [1, 2]).1.status = 200 ∧
    ((NewResponseCapture uw0).Write [1, 2]).1.wroteHeader = true ∧
    ((NewResponseCapture uw0).Write [1, 2]).1.underlying.headerCommits =
      (NewResponseCapture uw0).underlying.headerCommits ++ [200] ∧
    ((NewResponseCapture uw0).Write [1, 2]).1.body = (NewResponseCapture uw0).body ++ [1, 2] ∧
    ((NewResponseCapture uw0).Write [1, 2]).1.underlying.forwarded =
      (NewResponseCapture uw0).underlying.forwarded ++ [1, 2] ∧
    ((NewResponseCapture uw0).Write [1, 2]).2 = uw0.writeResult [1, 2] := by
  obtain ⟨h1, h2, h3, h4⟩ := c7_write_passthrough (NewResponseCapture uw0) [1, 2]
  obtain ⟨a, b, c⟩ := h1 rfl
  exact ⟨a, b, c, h2, h3, h4⟩

/-- Claim C8: on a capture with headers pending, the first WriteHeader
latches its code, commits it to the wrapped writer exactly once, and a
second WriteHeader with any code changes nothing at all. -/
theorem c8_writeHeader_idempotent (c : ResponseCapture) (s1 s2 : Int)
    (h : c.wroteHeader = false) :
    (c.WriteHeader s1).WriteHeader s2 = c.WriteHeader s1 ∧
    (c.WriteHeader s1).status = s1 ∧
    (c.WriteHeader s1).underlying.headerCommits = c.underlying.headerCommits ++ [s1] := by
  simp [ResponseCapture.WriteHeader, h]

/-- Witness for C8 with codes 201 and 500 on a fresh capture. -/
theorem c8_witness :
    ((NewResponseCapture uw0).WriteHeader 201).WriteHeader 500 =
      (NewResponseCapture uw0).WriteHeader 201 ∧
    ((NewResponseCapture uw0).WriteHeader 201).status = 201 ∧
    ((NewResponseCapture uw0).WriteHeader 201).underlying.headerCommits =
      (NewResponseCapture uw0).underlying.headerCommits ++ [201] :=
  c8_writeHeader_idempotent (NewResponseCapture uw0) 201 500 rfl

/-- Claim C10: a capture on which the handler never wrote reports
status 0, not 200, and the finalized event therefore records response
status 0. -/
theorem c10_untouched_status_zero (w : UnderlyingWriter) (e : Event) (now : Nat)
    (q : List Event) :
    (NewResponseCapture w).StatusCode = 0 ∧
    (finalizeEvent e (NewResponseCapture w) now).responseStatus = some 0 ∧
    LogResponseObject (some e) (NewResponseCapture w) now q =
      Except.ok (cacheEvent q (finalizeEvent e (NewResponseCapture w) now)) := by
  refine ⟨rfl, ?_, rfl⟩
  cases hge : e.level.GreaterOrEqual AuditLevel.RequestResponse <;>
    simp [finalizeEvent, hge, ResponseCapture.StatusCode, NewResponseCapture, toInt32]

theorem applyUser_workspace (e : Event) (req : Request) :
    (applyUser e req).workspace = e.workspace := by
  unfold applyUser
  cases req.user <;> rfl

theorem applyUser_level (e : Event) (req : Request) :
    (applyUser e req).level = e.level := by
  unfold applyUser
  cases req.user <;> rfl

theorem applyUser_requestObject (e : Event) (req : Request) :
    (applyUser e req).requestObject = e.requestObject := by
  unfold applyUser
  cases req.user <;> rfl

theorem applyUser_responseObject (e : Event) (req : Request) :
    (applyUser e req).responseObject = e.responseObject := by
  unfold applyUser
  cases req.user <;> rfl

theorem enrichWorkspace_level (e : Event) (reg : RegistryResult) :
    (enrichWorkspace e reg).1.level = e.level := by
  unfold enrichWorkspace
  split <;> rfl

theorem enrichWorkspace_requestObject (e : Event) (reg : RegistryResult) :
    (enrichWorkspace e reg).1.requestObject = e.requestObject := by
  unfold enrichWorkspace
  split <;> rfl

theorem enrichWorkspace_responseObject (e : Event) (reg : RegistryResult) :
    (enrichWorkspace e reg).1.responseObject = e.responseObject := by
  unfold enrichWorkspace
  split <;> rfl

theorem enrichWorkspace_empty_items (e : Event) (err : Option String) :
    (enrichWorkspace e { items := [], err := err }).1 = e := by
  unfold enrichWorkspace
  split <;> rfl

theorem enrichWorkspace_err_logs (e : Event) (items : List DevOpsProject) (msg : String)
    (hdev : 0 < e.devops.length) (hws : e.workspace.length = 0) :
    (enrichWorkspace e { items := items, err := some msg }).2 = [LogEntry.listError msg] := by
  unfold enrichWorkspace
  rw [if_pos ⟨hdev, hws⟩]

theorem preBodyEvent_level (req : Request) (info : RequestInfo) (lvl : AuditLevel)
    (auditID : String) (now : Nat) (reg : RegistryResult) :
    (preBodyEvent req info lvl auditID now reg).level = lvl := by
  unfold preBodyEvent
  rw [applyUser_level]
  have h := enrichWorkspace_level (baseEvent req info lvl auditID now) reg
  simpa using h

theorem preBodyEvent_requestObject (req : Request) (info : RequestInfo) (lvl : AuditLevel)
    (auditID : String) (now : Nat) (reg : RegistryResult) :
    (preBodyEvent req info lvl auditID now reg).requestObject = none := by
  unfold preBodyEvent
  rw [applyUser_requestObject]
  have h := enrichWorkspace_requestObject (baseEvent req info lvl auditID now) reg
  simpa using h

theorem preBodyEvent_responseObject (req : Request) (info : RequestInfo) (lvl : AuditLevel)
    (auditID : String) (now : Nat) (reg : RegistryResult) :
    (preBodyEvent req info lvl auditID now reg).responseObject = none := by
  unfold preBodyEvent
  rw [applyUser_responseObject]
  have h := enrichWorkspace_responseObject (baseEvent req info lvl auditID now) reg
  simpa using h

theorem snapshotRequestBody_workspace (e : Event) (bs : List Nat) :
    (snapshotRequestBody e bs).workspace = e.workspace := by
  unfold snapshotRequestBody
  split <;> rfl

theorem snapshotRequestBody_level (e : Event) (bs : List Nat) :
    (snapshotRequestBody e bs).level = e.level := by
  unfold snapshotRequestBody
  split <;> rfl

theorem snapshotRequestBody_responseObject (e : Event) (bs : List Nat) :
    (snapshotRequestBody e bs).responseObject = e.responseObject := by
  unfold snapshotRequestBody
  split <;> rfl

theorem snapshotRequestBody_requestObject (e : Event) (bs : List Nat) :
    (snapshotRequestBody e bs).requestObject =
      (if e.level.GreaterOrEqual AuditLevel.Request = true then some bs
       else e.requestObject) := by
  unfold snapshotRequestBody
  split <;> simp_all

theorem applyCreateName_workspace (e : Event) (info : RequestInfo) (bs : List Nat)
    (f : List Nat → Option String) :
    (applyCreateName e info bs f).workspace = e.workspace := by
  unfold applyCreateName
  repeat' split
  all_goals rfl

theorem applyCreateName_level (e : Event) (info : RequestInfo) (bs : List Nat)
    (f : List Nat → Option String) :
    (applyCreateName e info bs f).level = e.level := by
  unfold applyCreateName
  repeat' split
  all_goals rfl

theorem applyCreateName_responseObject (e : Event) (info : RequestInfo) (bs : List Nat)
    (f : List Nat → Option String) :
    (applyCreateName e info bs f).responseObject = e.responseObject := by
  unfold applyCreateName
  repeat' split
  all_goals rfl

theorem applyCreateName_requestObject (e : Event) (info : RequestInfo) (bs : List Nat)
    (f : List Nat → Option String) :
    (applyCreateName e info bs f).requestObject = e.requestObject := by
  unfold applyCreateName
  repeat' split
  all_goals rfl

theorem relabelUserVerb_workspace (e : Event) (bs : List Nat)
    (g : List Nat → Option String) :
    (relabelUserVerb e bs g).workspace = e.workspace := by
  unfold relabelUserVerb
  repeat' split
  all_goals rfl

theorem relabelUserVerb_level (e : Event) (bs : List Nat)
    (g : List Nat → Option String) :
    (relabelUserVerb e bs g).level = e.level := by
  unfold relabelUserVerb
  repeat' split
  all_goals rfl

theorem relabelUserVerb_responseObject (e : Event) (bs : List Nat)
    (g : List Nat → Option String) :
    (relabelUserVerb e bs g).responseObject = e.responseObject := by
  unfold relabelUserVerb
  repeat' split
  all_goals rfl

theorem relabelUserVerb_requestObject (e : Event) (bs : List Nat)
    (g : List Nat → Option String) :
    (relabelUserVerb e bs g).requestObject = e.requestObject := by
  unfold relabelUserVerb
  repeat' split
  all_goals rfl

theorem analyzeBody_workspace (e : Event) (req : Request) (info : RequestInfo)
    (f g : List Nat → Option String) :
    (analyzeBody e req info f g).1.workspace = e.workspace := by
  unfold analyzeBody
  repeat' split
  all_goals
    simp [relabelUserVerb_workspace, applyCreateName_workspace, snapshotRequestBody_workspace]

theorem analyzeBody_level (e : Event) (req : Request) (info : RequestInfo)
    (f g : List Nat → Option String) :
    (analyzeBody e req info f g).1.level = e.level := by
  unfold analyzeBody
  repeat' split
  all_goals
    simp [relabelUserVerb_level, applyCreateName_level, snapshotRequestBody_level]

theorem analyzeBody_responseObject (e : Event) (req : Request) (info : RequestInfo)
    (f g : List Nat → Option String) :
    (analyzeBody e req info f g).1.responseObject = e.responseObject := by
  unfold analyzeBody
  repeat' split
  all_goals
    simp [relabelUserVerb_responseObject, applyCreateName_responseObject,
      snapshotRequestBody_responseObject]

theorem analyzeBody_requestObject (e : Event) (req : Request) (info : RequestInfo)
    (f g : List Nat → Option String) (h : e.requestObject = none) :
    ((analyzeBody e req info f g).1.requestObject ≠ none ↔
      (e.level.GreaterOrEqual AuditLevel.Request = true ∧
        needAnalyzeRequestBody e req = true ∧ ∃ bs, req.body = Except.ok bs)) := by
  cases hg : needAnalyzeRequestBody e req with
  | false => simp [analyzeBody, hg, h]
  | true =>
      cases hb : req.body with
      | error msg => simp [analyzeBody, hg, hb, h]
      | ok bs =>
          cases hl : e.level.GreaterOrEqual AuditLevel.Request with
          | false =>
              simp [analyzeBody, hg, hb, relabelUserVerb_requestObject,
                applyCreateName_requestObject, snapshotRequestBody_requestObject, hl, h]
          | true =>
              simp [analyzeBody, hg, hb, relabelUserVerb_requestObject,
                applyCreateName_requestObject, snapshotRequestBody_requestObject, hl]

theorem finalizeEvent_requestObject (e : Event) (resp : ResponseCapture) (now : Nat) :
    (finalizeEvent e resp now).requestObject = e.requestObject := by
  unfold finalizeEvent
  dsimp only
  split <;> rfl

theorem finalizeEvent_responseObject (e : Event) (resp : ResponseCapture) (now : Nat)
    (h : e.responseObject = none) :
    ((finalizeEvent e resp now).responseObject ≠ none ↔
      e.level.GreaterOrEqual AuditLevel.RequestResponse = true) := by
  cases hge : e.level.GreaterOrEqual AuditLevel.RequestResponse <;>
    simp [finalizeEvent, hge, h]

/-- A request carrying the dryRun query parameter. -/
def reqDry : Request :=
  { query := [("dryRun", "All")], path := "/apis/apps/v1", userAgent := "ua",
    remoteIp := "2.2.2.2", contentLength := 0, body := Except.ok [], user := none }

/-- Request info recognized as a Kubernetes request. -/
def infoK8s : RequestInfo :=
  { isKubernetesRequest := true, path := "/apis/apps/v1", verb := "create",
    resource := "deployments", namespc := "d", name := "", apiGroup := "apps",
    apiVersion := "v1", resourceScope := "Namespaced", subresource := "",
    devops := "", workspace := "", cluster := "" }

/-- The same request info not recognized as a Kubernetes request. -/
def infoNonK8s : RequestInfo :=
  { infoK8s with isKubernetesRequest := false }

/-- Claim C1 (amended): for every request recognized as a Kubernetes
request whose URL carries the dryRun query parameter, LogRequestObject
returns nil, and the caller skips the OnResponse step for a nil event,
so no event reaches the delivery queue. -/
theorem c1_dryRun_kubernetes_nil (req : Request) (info : RequestInfo) (lvl : AuditLevel)
    (auditID : String) (now : Nat) (reg : RegistryResult)
    (f g : List Nat → Option String) (resp : ResponseCapture) (now2 : Nat) (q : List Event)
    (hk : info.isKubernetesRequest = true)
    (hq : (queryValues req "dryRun").length ≠ 0) :
    (LogRequestObject req info lvl auditID now reg f g).1 = none ∧
    withAuditingOnResponse (LogRequestObject req info lvl auditID now reg f g).1 resp now2 q =
      (q, none) := by
  have hdr : isDryRunIgnored req info = true := by
    simp [isDryRunIgnored, hk, hq]
  refine ⟨?_, ?_⟩ <;> simp [LogRequestObject, hdr, withAuditingOnResponse]

/-- Witness for C1 on a concrete Kubernetes dry-run request. -/
theorem c1_witness :
    (LogRequestObject reqDry infoK8s AuditLevel.Metadata "id-c1" 0 regEmpty
        decNone decNone).1 = none ∧
    withAuditingOnResponse
        (LogRequestObject reqDry infoK8s AuditLevel.Metadata "id-c1" 0 regEmpty
          decNone decNone).1
        (NewResponseCapture uw0) 1 [] = ([], none) :=
  c1_dryRun_kubernetes_nil reqDry infoK8s AuditLevel.Metadata "id-c1" 0 regEmpty
    decNone decNone (NewResponseCapture uw0) 1 [] rfl (by decide)

/-- Counterexample for C1 as stated: a request whose URL carries the
dryRun query parameter but that is not recognized as a Kubernetes
request is not ignored; LogRequestObject returns a non-nil event. -/
theorem c1_counterexample :
    (queryValues reqDry "dryRun").length ≠ 0 ∧
    (LogRequestObject reqDry infoNonK8s AuditLevel.Metadata "id-c1x" 0 regEmpty
        decNone decNone).1.isSome = true :=
  ⟨by decide, by rfl⟩

/-- A request for the workspace-enrichment scenario. -/
def reqC4 : Request :=
  { query := [], path := "/devops", userAgent := "ua", remoteIp := "3.3.3.3",
    contentLength := 0, body := Except.ok [], user := none }

/-- Request info carrying a devops project id and no workspace. -/
def infoC4 : RequestInfo :=
  { isKubernetesRequest := false, path := "/devops", verb := "get", resource := "pipelines",
    namespc := "", name := "", apiGroup := "", apiVersion := "", resourceScope := "",
    subresource := "", devops := "proj1", workspace := "", cluster := "" }

/-- Claim C4: when the event carries a devops project id, the workspace
is empty and the registry List call reports an error, LogRequestObject
logs the error, leaves the workspace empty and still returns the
constructed event; the failed lookup is never fatal. -/
theorem c4_enrichment_error_nonfatal (req : Request) (info : RequestInfo) (lvl : AuditLevel)
    (auditID : String) (now : Nat) (msg : String) (f g : List Nat → Option String)
    (hdr : isDryRunIgnored req info = false)
    (hdev : 0 < info.devops.length) (hws : info.workspace = "") :
    (∃ e, (LogRequestObject req info lvl auditID now { items := [], err := some msg } f g).1 =
        some e ∧ e.workspace = "") ∧
    LogEntry.listError msg ∈
      (LogRequestObject req info lvl auditID now { items := [], err := some msg } f g).2.2 := by
  constructor
  · refine ⟨(analyzeBody (preBodyEvent req info lvl auditID now { items := [], err := some msg })
        req info f g).1, by simp [LogRequestObject, hdr], ?_⟩
    rw [analyzeBody_workspace]
    unfold preBodyEvent
    rw [applyUser_workspace]
    show (enrichWorkspace (baseEvent req info lvl auditID now)
      { items := [], err := some msg }).1.workspace = ""
    rw [enrichWorkspace_empty_items]
    exact hws
  · simp only [LogRequestObject, hdr, Bool.false_eq_true, if_false]
    rw [enrichWorkspace_err_logs (baseEvent req info lvl auditID now) [] msg hdev
      (by show info.workspace.length = 0; rw [hws]; rfl)]
    simp

/-- Witness for C4 on a concrete devops request with a failing registry
lookup. -/
theorem c4_witness :
    (∃ e, (LogRequestObject reqC4 infoC4 AuditLevel.Metadata "id-c4" 0
        { items := [], err := some "boom" } decNone decNone).1 = some e ∧ e.workspace = "") ∧
    LogEntry.listError "boom" ∈
      (LogRequestObject reqC4 infoC4 AuditLevel.Metadata "id-c4" 0
        { items := [], err := some "boom" } decNone decNone).2.2 :=
  c4_enrichment_error_nonfatal reqC4 infoC4 AuditLevel.Metadata "id-c4" 0 "boom"
    decNone decNone rfl (by decide) rfl

/-- A create request with a readable two-byte body. -/
def reqC9 : Request :=
  { query := [], path := "/p9", userAgent := "ua", remoteIp := "4.4.4.4",
    contentLength := 2, body := Except.ok [10, 20], user := none }

/-- Request info for the create request above. -/
def infoC9 : RequestInfo :=
  { isKubernetesRequest := false, path := "/p9", verb := "create", resource := "apps",
    namespc := "", name := "", apiGroup := "", apiVersion := "", resourceScope := "",
    subresource := "", devops := "", workspace := "", cluster := "" }

/-- Claim C9: whenever the body-inspection gate fires and the read
succeeds, the request handed onward carries a reconstructed body whose
bytes are exactly the bytes the original body contained. -/
theorem c9_body_roundtrip (req : Request) (info : RequestInfo) (lvl : AuditLevel)
    (auditID : String) (now : Nat) (reg : RegistryResult) (f g : List Nat → Option String)
    (bs : List Nat)
    (hdr : isDryRunIgnored req info = false)
    (hgate : needAnalyzeRequestBody (preBodyEvent req info lvl auditID now reg) req = true)
    (hbody : req.body = Except.ok bs) :
    (LogRequestObject req info lvl auditID now reg f g).2.1.body = Except.ok bs := by
  simp [LogRequestObject, hdr, analyzeBody, hgate, hbody]

/-- Witness for C9 on a concrete create request. -/
theorem c9_witness :
    (LogRequestObject reqC9 infoC9 AuditLevel.Metadata "id-c9" 0 regEmpty
        decNone decNone).2.1.body = Except.ok [10, 20] :=
  c9_body_roundtrip reqC9 infoC9 AuditLevel.Metadata "id-c9" 0 regEmpty decNone decNone
    [10, 20] rfl rfl rfl

/-- A request with a readable one-byte body for the snapshot
invariant. -/
def reqC5 : Request :=
  { query := [], path := "/p5", userAgent := "ua", remoteIp := "5.5.5.5",
    contentLength := 1, body := Except.ok [9], user := none }

/-- Request info for the snapshot-invariant request. -/
def infoC5 : RequestInfo :=
  { isKubernetesRequest := false, path := "/p5", verb := "get", resource := "pods",
    namespc := "", name := "", apiGroup := "", apiVersion := "", resourceScope := "",
    subresource := "", devops := "", workspace := "", cluster := "" }

/-- Claim C5: for every event built by LogRequestObject and finalized
by LogResponseObject, the request-body snapshot is non-nil iff the
level reaches Request and the body-inspection gate fired and the body
read succeeded, and the response-body snapshot is non-nil iff the
level reaches RequestResponse. -/
theorem c5_snapshot_invariant (req : Request) (info : RequestInfo) (lvl : AuditLevel)
    (auditID : String) (now : Nat) (reg : RegistryResult) (f g : List Nat → Option String)
    (resp : ResponseCapture) (now2 : Nat)
    (hdr : isDryRunIgnored req info = false) :
    ((LogRequestObject req info lvl auditID now reg f g).1 =
        some (analyzeBody (preBodyEvent req info lvl auditID now reg) req info f g).1) ∧
    (((finalizeEvent (analyzeBody (preBodyEvent req info lvl auditID now reg) req info f g).1
          resp now2).requestObject ≠ none) ↔
      (AuditLevel.GreaterOrEqual lvl AuditLevel.Request = true ∧
        needAnalyzeRequestBody (preBodyEvent req info lvl auditID now reg) req = true ∧
        ∃ bs, req.body = Except.ok bs)) ∧
    (((finalizeEvent (analyzeBody (preBodyEvent req info lvl auditID now reg) req info f g).1
          resp now2).responseObject ≠ none) ↔
      AuditLevel.GreaterOrEqual lvl AuditLevel.RequestResponse = true) := by
  refine ⟨by simp [LogRequestObject, hdr], ?_, ?_⟩
  · rw [finalizeEvent_requestObject]
    have h := analyzeBody_requestObject (preBodyEvent req info lvl auditID now reg) req info f g
      (preBodyEvent_requestObject req info lvl auditID now reg)
    rw [preBodyEvent_level] at h
    exact h
  · have hro := analyzeBody_responseObject (preBodyEvent req info lvl auditID now reg) req info f g
    rw [preBodyEvent_responseObject] at hro
    have h := finalizeEvent_responseObject
      (analyzeBody (preBodyEvent req info lvl auditID now reg) req info f g).1 resp now2 hro
    rw [analyzeBody_level, preBodyEvent_level] at h
    exact h

/-- Witness for C5 at level RequestResponse on a concrete request. -/
theorem c5_witness :
    ((LogRequestObject reqC5 infoC5 AuditLevel.RequestResponse "id-c5" 0 regEmpty
        decNone decNone).1 =
      some (analyzeBody
        (preBodyEvent reqC5 infoC5 AuditLevel.RequestResponse "id-c5" 0 regEmpty)
        reqC5 infoC5 decNone decNone).1) ∧
    (((finalizeEvent (analyzeBody
          (preBodyEvent reqC5 infoC5 AuditLevel.RequestResponse "id-c5" 0 regEmpty)
          reqC5 infoC5 decNone decNone).1 (NewResponseCapture uw0) 9).requestObject ≠ none) ↔
      (AuditLevel.GreaterOrEqual AuditLevel.RequestResponse AuditLevel.Request = true ∧
        needAnalyzeRequestBody
          (preBodyEvent reqC5 infoC5 AuditLevel.RequestResponse "id-c5" 0 regEmpty)
          reqC5 = true ∧
        ∃ bs, reqC5.body = Except.ok bs)) ∧
    (((finalizeEvent (analyzeBody
          (preBodyEvent reqC5 infoC5 AuditLevel.RequestResponse "id-c5" 0 regEmpty)
          reqC5 infoC5 decNone decNone).1 (NewResponseCapture uw0) 9).responseObject ≠ none) ↔
      AuditLevel.GreaterOrEqual AuditLevel.RequestResponse AuditLevel.RequestResponse = true) :=
  c5_snapshot_invariant reqC5 infoC5 AuditLevel.RequestResponse "id-c5" 0 regEmpty
    decNone decNone (NewResponseCapture uw0) 9 rfl
